import Mathlib

/-!
Verification development for the request-tracking backend (src/server.py).

The embedding is a direct translation of the Python source:
statuses are the Spanish string labels used by the code
("Pendiente", "En progreso", "En revisión", "Finalizada", "Rechazada"),
documents are records with `Option` fields where the stored document may
lack a field, timestamps are integer seconds, floating-point hours are
rationals, and the Mongo store is a pair of lists (requests and the flat
ticket_status_events collection) plus the users collection.  Every HTTP
handler is modelled as a function from the database and its arguments to
the updated database together with an `Except` result; an exception in
the Python code aborts the handler before any write, which the model
mirrors by returning the unchanged database in every error branch that
precedes the writes.
-/

namespace Solicitudes

abbrev Timestamp := Int

/-- Error taxonomy of the handlers, keyed by the HTTP status codes the
source raises: 404 Request not found, 400 for a disallowed transition
(ensure_transition), 422 for a missing comment or evidence link,
403 for the review permission check, 400 for a missing target user
(badRequest), and 400 for the feedback state/duplicate checks
(modelled as badRequest and conflict). -/
inductive ApiError where
  | notFound
  | invalidTransition
  | validationError
  | forbidden
  | badRequest
  | conflict
deriving DecidableEq

/-- User document, restricted to the fields the handlers read. -/
structure UserDoc where
  id : String
  username : String
  full_name : String
  department : String
  role : String
deriving DecidableEq

/-- The authenticated current_user as the handlers consume it. -/
structure Actor where
  id : String
  full_name : String
  department : String
  role : String
deriving DecidableEq

/-- StateEvent embedded history record (models the pydantic StateEvent;
the source field named "at" is rendered at_time because "at" is reserved
in Lean). -/
structure StateEvent where
  from_status : Option String
  to_status : String
  at_time : Timestamp
  by_user_id : String
  by_user_name : String
deriving DecidableEq

/-- Feedback record (models the pydantic Feedback). -/
structure Feedback where
  rating : String
  comment : Option String
  at_time : Timestamp
  by_user_id : String
  by_user_name : String
deriving DecidableEq

/-- The review_evidence dictionary written by the transition handler
(source keys "type", "url", "by", "at"; the last two are rendered by_id
and at_time because by and at are reserved in Lean). -/
structure ReviewEvidence where
  type : String
  url : String
  by_id : String
  at_time : Timestamp
deriving DecidableEq

/-- A stored request document.  `type`, `channel` and `status` are
`Option` because legacy stored documents may lack them (the
normalization function fills the defaults, as _normalize_request_doc
does). -/
structure RequestDoc where
  id : String
  title : String
  description : String
  priority : String
  type : Option String
  channel : Option String
  level : Option Int
  status : Option String
  requester_id : String
  requester_name : String
  department : String
  assigned_to : Option String
  assigned_to_name : Option String
  assigned_by_id : Option String
  assigned_by_name : Option String
  estimated_hours : Option ℚ
  estimated_due : Option Timestamp
  requested_at : Timestamp
  created_at : Timestamp
  updated_at : Timestamp
  completion_date : Option Timestamp
  state_history : List StateEvent
  feedback : Option Feedback
  rejection_reason : Option String
  review_evidence : Option ReviewEvidence
  reabierto_count : Int
deriving DecidableEq

/-- A flat ticket_status_events record (the Event Log). -/
structure EventRec where
  ticket_id : String
  estado : String
  changed_by : String
  changed_at : Timestamp
deriving DecidableEq

/-- The document store: the requests, ticket_status_events and users
collections. -/
structure DB where
  requests : List RequestDoc
  ticket_status_events : List EventRec
  users : List UserDoc
deriving DecidableEq

/-- OPEN_STATES from the source. -/
def OPEN_STATES : List String := ["Pendiente", "En progreso", "En revisión"]

/-- VALID_STATUSES from the source. -/
def VALID_STATUSES : List String :=
  ["Pendiente", "En progreso", "En revisión", "Finalizada", "Rechazada"]

/-- STATUS_SYNONYMS from the source. -/
def STATUS_SYNONYMS : List (String × String) :=
  [("Completada", "Finalizada"), ("Completado", "Finalizada"),
   ("completada", "Finalizada"), ("completado", "Finalizada"),
   ("En Progreso", "En progreso"), ("En Revisión", "En revisión"),
   ("Cancelada", "Rechazada"), ("Cancelado", "Rechazada")]

/-- Look a status up in STATUS_SYNONYMS, returning it unchanged when it
is not a key (the `st in STATUS_SYNONYMS` guard in the source). -/
def applySynonym (s : String) : String :=
  match STATUS_SYNONYMS.lookup s with
  | some v => v
  | none => s

/-- Status part of _normalize_request_doc: default a missing status to
"Pendiente", map synonyms, and fall back to "Pendiente" when the result
is not a valid status. -/
def normalizeStatus (st : Option String) : String :=
  let s := applySynonym (st.getD "Pendiente")
  if s ∈ VALID_STATUSES then s else "Pendiente"

/-- Models _normalize_request_doc followed by the Request constructor
(_to_request): the defaults for type and channel are filled in and the
status is normalized; every other field is passed through. -/
def to_request (d : RequestDoc) : RequestDoc :=
  { d with
    type := some (d.type.getD "Soporte"),
    channel := some (d.channel.getD "Sistema"),
    status := some (normalizeStatus d.status) }

/-- ALLOWED_TRANSITIONS from the source ("Finalizada" and "Rechazada"
map to the empty set, as does any other key, which ensure_transition is
only ever called with after normalization). -/
def ALLOWED_TRANSITIONS (s : String) : List String :=
  if s = "Pendiente" then ["En progreso", "Rechazada"]
  else if s = "En progreso" then ["En revisión"]
  else if s = "En revisión" then ["Finalizada", "En progreso"]
  else []

/-- Python str.strip(): drop leading and trailing whitespace.  Written
over the character list with structural recursion so that concrete
instances evaluate. -/
def pyStrip (s : String) : String :=
  ⟨((s.data.dropWhile Char.isWhitespace).reverse.dropWhile Char.isWhitespace).reverse⟩

/-- Python truthiness/strip test used by the handlers:
`not x or not x.strip()`. -/
def isBlank : Option String → Bool
  | none => true
  | some s => pyStrip s == ""

/-- Python `x or y` on an optional string (None and "" are falsy). -/
def pyOrId (o : Option String) (d : String) : String :=
  match o with
  | some s => if s = "" then d else s
  | none => d

/-- First document of the list with the given id (find_one semantics). -/
def findDoc : List RequestDoc → String → Option RequestDoc
  | [], _ => none
  | r :: rest, i => if r.id = i then some r else findDoc rest i

/-- db.requests.find_one({"id": request_id}). -/
def findRequest (db : DB) (request_id : String) : Option RequestDoc :=
  findDoc db.requests request_id

/-- First user of the list with the given id (find_one semantics). -/
def findUserDoc : List UserDoc → String → Option UserDoc
  | [], _ => none
  | r :: rest, i => if r.id = i then some r else findUserDoc rest i

/-- db.users.find_one({"id": uid}). -/
def findUser (db : DB) (uid : String) : Option UserDoc :=
  findUserDoc db.users uid

/-- Apply the update to every document carrying the id (update_one on a
store keyed by id). -/
def updateDocs : List RequestDoc → String → (RequestDoc → RequestDoc) → List RequestDoc
  | [], _, _ => []
  | r :: rest, i, f => (if r.id = i then f r else r) :: updateDocs rest i f

/-- db.requests.update_one({"id": id}, ops), with the update operators
already fused into a document transformer `f`. -/
def updateRequest (db : DB) (request_id : String) (f : RequestDoc → RequestDoc) : DB :=
  { db with requests := updateDocs db.requests request_id f }

/-- db.ticket_status_events.insert_one(e). -/
def insertEvent (db : DB) (e : EventRec) : DB :=
  { db with ticket_status_events := db.ticket_status_events ++ [e] }

/-- Body of POST /requests/{id}/transition (the TransitionPayload model). -/
structure TransitionPayload where
  to_status : String
  comment : Option String
  evidence_link : Option String
deriving DecidableEq

/-- The update applied by the transition handler to the stored document:
the $set operators (status, updated_at, completion_date on landing in
Finalizada or Rechazada, rejection_reason on Rechazada, review_evidence
on En revisión), the $push of the history event, and the $inc of
reabierto_count when leaving Finalizada for an open state. -/
def transitionUpd (currentStatus : String) (p : TransitionPayload) (u : Actor)
    (now : Timestamp) (r : RequestDoc) : RequestDoc :=
  let r1 := { r with status := some p.to_status, updated_at := now }
  let r2 := if p.to_status = "Finalizada" ∨ p.to_status = "Rechazada" then
      { r1 with completion_date := some now } else r1
  let r3 := if p.to_status = "Rechazada" then
      { r2 with rejection_reason := some (pyStrip (p.comment.getD "")) } else r2
  let ev : ReviewEvidence := ⟨"link", pyStrip (p.evidence_link.getD ""), u.id, now⟩
  let r4 := if p.to_status = "En revisión" then
      { r3 with review_evidence := some ev } else r3
  let r5 := { r4 with state_history := r4.state_history ++
      [⟨some currentStatus, p.to_status, now, u.id, u.full_name⟩] }
  if currentStatus = "Finalizada" ∧ p.to_status ∈ OPEN_STATES then
    { r5 with reabierto_count := r5.reabierto_count + 1 } else r5

/-- Handler POST /requests/{request_id}/transition.  The checks run in
source order: find_one, ensure_transition, the Rechazada comment rule,
the En revisión permission rule, the En revisión evidence rule; only
then the update_one and the ticket_status_events insert.  The returned
request is the re-fetched document passed through _to_request; after
the update the document found under this id is exactly the updated one,
so the model returns it directly. -/
def transition_request (db : DB) (request_id : String) (p : TransitionPayload)
    (u : Actor) (now : Timestamp) : DB × Except ApiError RequestDoc :=
  match findRequest db request_id with
  | none => (db, .error .notFound)
  | some doc =>
    let currentStatus := normalizeStatus doc.status
    if p.to_status ∈ ALLOWED_TRANSITIONS currentStatus then
      if p.to_status = "Rechazada" ∧ isBlank p.comment then
        (db, .error .validationError)
      else if p.to_status = "En revisión" ∧
          ¬ (some u.id = doc.assigned_to ∨ some u.id = doc.assigned_by_id) ∧
          u.role ≠ "admin" then
        (db, .error .forbidden)
      else if p.to_status = "En revisión" ∧ isBlank p.evidence_link then
        (db, .error .validationError)
      else
        let upd := transitionUpd currentStatus p u now
        (insertEvent (updateRequest db request_id upd)
           ⟨request_id, p.to_status, u.id, now⟩,
         .ok (to_request (upd doc)))
    else (db, .error .invalidTransition)

/-- Body of PUT /requests/{id} (the RequestUpdate model).  The outer
Option records whether the field was provided at all (pydantic
exclude_unset); the inner Option is the provided value, which may be
null. -/
structure RequestUpdate where
  status : Option (Option String)
  assigned_to : Option (Option String)
  estimated_hours : Option (Option ℚ)
  estimated_due : Option (Option Timestamp)
deriving DecidableEq

/-- Truthiness filter the generic update applies to a provided field:
the branch guards read `update_data["k"]` which is falsy for null and
for the empty string. -/
def providedTruthy (o : Option (Option String)) : Option String :=
  match o with
  | some (some s) => if s = "" then none else some s
  | _ => none

/-- The $set of the provided RequestUpdate fields plus updated_at. -/
def applyGenericSet (pu : RequestUpdate) (now : Timestamp) (r : RequestDoc) : RequestDoc :=
  let r1 := match pu.status with
    | some v => { r with status := v }
    | none => r
  let r2 := match pu.assigned_to with
    | some v => { r1 with assigned_to := v }
    | none => r1
  let r3 := match pu.estimated_hours with
    | some v => { r2 with estimated_hours := v }
    | none => r2
  let r4 := match pu.estimated_due with
    | some v => { r3 with estimated_due := v }
    | none => r3
  { r4 with updated_at := now }

/-- The assigned_to_name resolution of the generic update: when a truthy
assigned_to is provided and the user exists, $set the display name. -/
def genericNameSet (db : DB) (pu : RequestUpdate) (r : RequestDoc) : RequestDoc :=
  match providedTruthy pu.assigned_to with
  | some a =>
    match findUser db a with
    | some usr => { r with assigned_to_name := some usr.full_name }
    | none => r
  | none => r

/-- The full document update of the generic handler when a status change
is being applied: the $set fields, completion_date on landing in
Finalizada or Rechazada, the $push of the history event, and the $inc of
reabierto_count when leaving Finalizada for an open state. -/
def genericTransitionUpd (db : DB) (currentStatus s : String) (pu : RequestUpdate)
    (u : Actor) (now : Timestamp) (r : RequestDoc) : RequestDoc :=
  let r1 := genericNameSet db pu (applyGenericSet pu now r)
  let r2 := if s = "Finalizada" ∨ s = "Rechazada" then
      { r1 with completion_date := some now } else r1
  let r3 := { r2 with state_history := r2.state_history ++
      [⟨some currentStatus, s, now, u.id, u.full_name⟩] }
  if currentStatus = "Finalizada" ∧ s ∈ OPEN_STATES then
    { r3 with reabierto_count := r3.reabierto_count + 1 } else r3

/-- Handler PUT /requests/{request_id} (update_request_generic).  When a
truthy status is provided and differs from the normalized current
status, it runs ensure_transition and the transition side effects
(history push, completion_date, rework $inc, event insert); otherwise it
only applies the $set of the provided fields.  Note that, unlike the
dedicated transition handler, it has no comment/evidence/permission
rules and never writes rejection_reason or review_evidence. -/
def update_request_generic (db : DB) (request_id : String) (pu : RequestUpdate)
    (u : Actor) (now : Timestamp) : DB × Except ApiError RequestDoc :=
  match findRequest db request_id with
  | none => (db, .error .notFound)
  | some doc =>
    let currentStatus := normalizeStatus doc.status
    match providedTruthy pu.status with
    | some s =>
      if s = currentStatus then
        let f := fun r => genericNameSet db pu (applyGenericSet pu now r)
        (updateRequest db request_id f, .ok (to_request (f doc)))
      else if s ∈ ALLOWED_TRANSITIONS currentStatus then
        let f := genericTransitionUpd db currentStatus s pu u now
        (updateRequest (insertEvent db ⟨request_id, s, u.id, now⟩) request_id f,
         .ok (to_request (f doc)))
      else (db, .error .invalidTransition)
    | none =>
      let f := fun r => genericNameSet db pu (applyGenericSet pu now r)
      (updateRequest db request_id f, .ok (to_request (f doc)))

/-- Body of POST /requests (the RequestCreate model).  Fields whose
provided-null case behaves exactly like the absent case are collapsed
into a single Option. -/
structure RequestCreate where
  title : String
  description : String
  priority : String
  type : String
  channel : String
  requested_at : Option Timestamp
  level : Option Int
  assigned_to : Option String
  estimated_hours : Option ℚ
  estimated_due : Option Timestamp
deriving DecidableEq

/-- Handler POST /requests (create_request), translated from the live
code path (lines 485-525 of the source; the statements after the
`return` on line 525 are unreachable, so no ticket_status_events record
is inserted).  The fresh uuid is passed in as `newId`.  The request is
created in status "Pendiente" with the synthetic StateEvent
(from_status = none); level/estimates/assignment are applied only for
an admin actor, and a truthy assigned_to that references no user aborts
with a 400 before anything is written. -/
def create_request (db : DB) (payload : RequestCreate) (u : Actor)
    (now : Timestamp) (newId : String) : DB × Except ApiError RequestDoc :=
  let base : RequestDoc := {
    id := newId, title := payload.title, description := payload.description,
    priority := payload.priority, type := some payload.type,
    channel := some payload.channel, level := none,
    status := some "Pendiente",
    requester_id := u.id, requester_name := u.full_name,
    department := u.department,
    assigned_to := none, assigned_to_name := none,
    assigned_by_id := none, assigned_by_name := none,
    estimated_hours := none, estimated_due := none,
    requested_at := payload.requested_at.getD now,
    created_at := now, updated_at := now, completion_date := none,
    state_history := [], feedback := none, rejection_reason := none,
    review_evidence := none, reabierto_count := 0 }
  let withAdmin : Except ApiError RequestDoc :=
    if u.role = "admin" then
      let b := { base with level := payload.level,
                           estimated_hours := payload.estimated_hours,
                           estimated_due := payload.estimated_due }
      match payload.assigned_to with
      | some a =>
        if a = "" then .ok b
        else
          match findUser db a with
          | none => .error .badRequest
          | some usr =>
            .ok { b with assigned_to := some usr.id,
                         assigned_to_name := some usr.full_name }
      | none => .ok b
    else .ok base
  match withAdmin with
  | .error e => (db, .error e)
  | .ok r0 =>
    let r := { r0 with state_history := r0.state_history ++
        [⟨none, "Pendiente", now, u.id, u.full_name⟩] }
    ({ db with requests := db.requests ++ [r] }, .ok r)

/-- Handler POST /requests/{request_id}/classify: $set level, priority
and updated_at; no history event, no event-log record. -/
def classify_request (db : DB) (request_id : String) (level : Int)
    (priority : String) (now : Timestamp) : DB × Except ApiError RequestDoc :=
  match findRequest db request_id with
  | none => (db, .error .notFound)
  | some doc =>
    let f : RequestDoc → RequestDoc := fun r =>
      { r with level := some level, priority := priority, updated_at := now }
    (updateRequest db request_id f, .ok (to_request (f doc)))

/-- Body of POST /requests/{id}/assign and /unassign (AssignPayload). -/
structure AssignPayload where
  assigned_to : Option String
  estimated_hours : Option ℚ
  estimated_due : Option Timestamp
deriving DecidableEq

/-- Handler POST /requests/{request_id}/assign: resolve the target user
(payload.assigned_to or, when falsy, the calling admin), fail with 400
when the target does not exist, then $set assignee id+name, the
estimates, updated_at, and who assigned. -/
def assign_request (db : DB) (request_id : String) (payload : AssignPayload)
    (u : Actor) (now : Timestamp) : DB × Except ApiError RequestDoc :=
  match findRequest db request_id with
  | none => (db, .error .notFound)
  | some doc =>
    let target_user_id := pyOrId payload.assigned_to u.id
    match findUser db target_user_id with
    | none => (db, .error .badRequest)
    | some tu =>
      let f : RequestDoc → RequestDoc := fun r =>
        { r with assigned_to := some tu.id, assigned_to_name := some tu.full_name,
                 estimated_hours := payload.estimated_hours,
                 estimated_due := payload.estimated_due,
                 updated_at := now,
                 assigned_by_id := some u.id, assigned_by_name := some u.full_name }
      (updateRequest db request_id f, .ok (to_request (f doc)))

/-- Handler POST /requests/{request_id}/unassign: identical to assign
except that it does not record who assigned (assigned_by_id and
assigned_by_name are left untouched).  In particular it still resolves
and writes a non-null assignee. -/
def unassign_request (db : DB) (request_id : String) (payload : AssignPayload)
    (u : Actor) (now : Timestamp) : DB × Except ApiError RequestDoc :=
  match findRequest db request_id with
  | none => (db, .error .notFound)
  | some doc =>
    let target_user_id := pyOrId payload.assigned_to u.id
    match findUser db target_user_id with
    | none => (db, .error .badRequest)
    | some tu =>
      let f : RequestDoc → RequestDoc := fun r =>
        { r with assigned_to := some tu.id, assigned_to_name := some tu.full_name,
                 estimated_hours := payload.estimated_hours,
                 estimated_due := payload.estimated_due,
                 updated_at := now }
      (updateRequest db request_id f, .ok (to_request (f doc)))

/-- Body of POST /requests/{id}/feedback (FeedbackPayload). -/
structure FeedbackPayload where
  rating : String
  comment : Option String
deriving DecidableEq

/-- Handler POST /requests/{request_id}/feedback: requester-or-admin
check (403), finalized check (400), already-present check (400,
modelled as conflict), then $set feedback only. -/
def submit_feedback (db : DB) (request_id : String) (payload : FeedbackPayload)
    (u : Actor) (now : Timestamp) : DB × Except ApiError RequestDoc :=
  match findRequest db request_id with
  | none => (db, .error .notFound)
  | some doc =>
    if u.role ≠ "admin" ∧ doc.requester_id ≠ u.id then (db, .error .forbidden)
    else if normalizeStatus doc.status ≠ "Finalizada" then (db, .error .badRequest)
    else
      match doc.feedback with
      | some _ => (db, .error .conflict)
      | none =>
        let fb : Feedback := ⟨payload.rating, payload.comment, now, u.id, u.full_name⟩
        let f : RequestDoc → RequestDoc := fun r => { r with feedback := some fb }
        (updateRequest db request_id f, .ok (to_request (f doc)))

/-- Hours between two timestamps: (t2 - t1).total_seconds() / 3600,
with seconds as integers and hours as rationals. -/
def hoursBetween (t1 t2 : Timestamp) : ℚ := ((t2 - t1 : Int) : ℚ) / 3600

/-- state_time[s] += d on the running per-state totals. -/
def bump (m : String → ℚ) (s : String) (d : ℚ) : String → ℚ :=
  fun s2 => if s2 = s then m s2 + d else m s2

/-- The `last` dictionary of metrics_time_by_state, as an insertion
ordered association list from ticket_id to (state, time), mirroring a
Python dict. -/
abbrev LastMap := List (String × (String × Timestamp))

/-- Dictionary lookup in the `last` map. -/
def lookupLast : LastMap → String → Option (String × Timestamp)
  | [], _ => none
  | (k, v) :: rest, tid => if k = tid then some v else lookupLast rest tid

/-- Dictionary assignment last[tid] = v: replace in place, else append
(Python dicts keep insertion order). -/
def updLast : LastMap → String → (String × Timestamp) → LastMap
  | [], tid, v => [(tid, v)]
  | (k, w) :: rest, tid, v =>
    if k = tid then (k, v) :: rest else (k, w) :: updLast rest tid v

/-- One iteration of the event loop of metrics_time_by_state: charge the
positive delta since the ticket's previous event to the previous state,
then remember this event as the ticket's last one. -/
def stepEvent (acc : (String → ℚ) × LastMap) (ev : EventRec) : (String → ℚ) × LastMap :=
  let st2 := match lookupLast acc.2 ev.ticket_id with
    | some pv =>
      let d := hoursBetween pv.2 ev.changed_at
      if 0 < d then bump acc.1 pv.1 d else acc.1
    | none => acc.1
  (st2, updLast acc.2 ev.ticket_id (ev.estado, ev.changed_at))

/-- The closing loop of metrics_time_by_state: for every ticket, charge
the positive delta from its last event to the window end to its last
known state. -/
def tailSegments (endT : Timestamp) (st : String → ℚ) : LastMap → (String → ℚ)
  | [] => st
  | (_, sv) :: rest =>
    tailSegments endT
      (if 0 < hoursBetween sv.2 endT then bump st sv.1 (hoursBetween sv.2 endT) else st)
      rest

/-- GET /metrics/time-by-state, as a function from the fetched event
list (sorted by (ticket_id, changed_at), as the handler requests from
the store) and the window end to the per-state totals in hours, before
the final rounding. -/
def metrics_time_by_state (events : List EventRec) (endT : Timestamp) : String → ℚ :=
  let acc := events.foldl stepEvent (fun _ => 0, [])
  tailSegments endT acc.1 acc.2

/-- Python round(x, 1) (on the exact rational values arising here the
choice of half-way convention is immaterial). -/
def round1 (x : ℚ) : ℚ := ((round (10 * x) : ℤ) : ℚ) / 10

/-- One event of a ticket in the reference algorithm:
(state, actor, time). -/
abbrev EvData := String × String × Timestamp

/-- One segment of the reference algorithm: d hours in state s, counted
only when the delta is positive. -/
def segTime (s : String) (d : ℚ) : String → ℚ :=
  fun s2 => if s2 = s ∧ 0 < d then d else 0

/-- Pointwise sum of per-state totals. -/
def addFn (f g : String → ℚ) : String → ℚ := fun s => f s + g s

/-- Reference algorithm, consecutive-pairs part: starting from the
previous (state, time), for each consecutive event add (time -
prev_time) hours to the previous state's total. -/
def pairsWalkFrom : (String × Timestamp) → List EvData → (String → ℚ)
  | _, [] => fun _ => 0
  | pv, q :: rest =>
    addFn (segTime pv.1 (hoursBetween pv.2 q.2.2)) (pairsWalkFrom (q.1, q.2.2) rest)

/-- The (state, time) of the last event of a walk started at pv. -/
def lastFrom : (String × Timestamp) → List EvData → (String × Timestamp)
  | pv, [] => pv
  | _, q :: rest => lastFrom (q.1, q.2.2) rest

/-- Reference algorithm, one ticket: the consecutive-pairs contributions
plus the final open-ended segment from the last event to the window
end. -/
def ticketTime (endT : Timestamp) (p : EvData) (rest : List EvData) : String → ℚ :=
  addFn (pairsWalkFrom (p.1, p.2.2) rest)
    (segTime (lastFrom (p.1, p.2.2) rest).1
      (hoursBetween (lastFrom (p.1, p.2.2) rest).2 endT))

/-- The events of one ticket, in time order, for the reference
algorithm: a ticket id and a nonempty event list. -/
structure TicketGroup where
  tid : String
  headEv : EvData
  tailEvs : List EvData
deriving DecidableEq

/-- The flat event-log records of one ticket group. -/
def groupEvents (g : TicketGroup) : List EventRec :=
  (g.headEv :: g.tailEvs).map (fun p => ⟨g.tid, p.1, p.2.1, p.2.2⟩)

/-- Concatenation of the per-ticket groups into the flat, (ticket_id,
changed_at)-sorted event list the handler iterates over. -/
def flattenGroups : List TicketGroup → List EventRec
  | [] => []
  | g :: gs => groupEvents g ++ flattenGroups gs

/-- Reference algorithm, whole event log: sum the per-ticket totals. -/
def reference_time_by_state (endT : Timestamp) : List TicketGroup → (String → ℚ)
  | [] => fun _ => 0
  | g :: gs => addFn (ticketTime endT g.headEv g.tailEvs) (reference_time_by_state endT gs)

/-- Sum of only the consecutive-pairs contributions of the groups. -/
def sumPairs : List TicketGroup → (String → ℚ)
  | [] => fun _ => 0
  | g :: gs => addFn (pairsWalkFrom (g.headEv.1, g.headEv.2.2) g.tailEvs) (sumPairs gs)

/-- The last (state, time) of a group. -/
def groupLast (g : TicketGroup) : String × Timestamp :=
  lastFrom (g.headEv.1, g.headEv.2.2) g.tailEvs

/-- Sum of only the final open-ended segments of the groups. -/
def sumTails (endT : Timestamp) : List TicketGroup → (String → ℚ)
  | [] => fun _ => 0
  | g :: gs =>
    addFn (segTime (groupLast g).1 (hoursBetween (groupLast g).2 endT))
      (sumTails endT gs)

/-- Databases reachable from an initial store holding no requests and no
event-log records through the public mutating operations of the core. -/
inductive Reachable : DB → Prop where
  | init (users : List UserDoc) : Reachable ⟨[], [], users⟩
  | create (db : DB) (p : RequestCreate) (u : Actor) (now : Timestamp) (newId : String) :
      Reachable db → Reachable (create_request db p u now newId).1
  | transition (db : DB) (id : String) (p : TransitionPayload) (u : Actor) (now : Timestamp) :
      Reachable db → Reachable (transition_request db id p u now).1
  | update (db : DB) (id : String) (p : RequestUpdate) (u : Actor) (now : Timestamp) :
      Reachable db → Reachable (update_request_generic db id p u now).1
  | classify (db : DB) (id : String) (lvl : Int) (pr : String) (now : Timestamp) :
      Reachable db → Reachable (classify_request db id lvl pr now).1
  | assign (db : DB) (id : String) (p : AssignPayload) (u : Actor) (now : Timestamp) :
      Reachable db → Reachable (assign_request db id p u now).1
  | unassign (db : DB) (id : String) (p : AssignPayload) (u : Actor) (now : Timestamp) :
      Reachable db → Reachable (unassign_request db id p u now).1
  | feedback (db : DB) (id : String) (p : FeedbackPayload) (u : Actor) (now : Timestamp) :
      Reachable db → Reachable (submit_feedback db id p u now).1

/-- Concrete sample admin actor, used by witnesses. -/
def adminActor : Actor := ⟨"u-admin", "Administrador Sistema", "Directivos", "admin"⟩

/-- Concrete sample support actor, used by witnesses. -/
def supportActor : Actor := ⟨"u-sup", "Juan Pérez", "Directivos", "support"⟩

/-- Concrete sample stored request in status "Pendiente". -/
def pendingDoc : RequestDoc := {
  id := "r1", title := "Automatizar facturación mensual",
  description := "Generar facturas recurrentes", priority := "Alta",
  type := some "Desarrollo", channel := some "Sistema", level := none,
  status := some "Pendiente", requester_id := "u-emp",
  requester_name := "Carlos López", department := "Facturación",
  assigned_to := none, assigned_to_name := none, assigned_by_id := none,
  assigned_by_name := none, estimated_hours := none, estimated_due := none,
  requested_at := 0, created_at := 0, updated_at := 0, completion_date := none,
  state_history := [⟨none, "Pendiente", 0, "u-emp", "Carlos López"⟩],
  feedback := none, rejection_reason := none, review_evidence := none,
  reabierto_count := 0 }

/-- Sample store holding the pending request only. -/
def pendingDB : DB := ⟨[pendingDoc], [], []⟩

/-- Sample stored request in status "Finalizada". -/
def finalizedDoc : RequestDoc := { pendingDoc with status := some "Finalizada" }

/-- Sample store holding the finalized request only. -/
def finalizedDB : DB := ⟨[finalizedDoc], [], []⟩

/-- Sample stored request in status "En progreso", assigned to u-a by
u-b. -/
def inProgressDoc : RequestDoc :=
  { pendingDoc with status := some "En progreso",
                    assigned_to := some "u-a", assigned_by_id := some "u-b" }

/-- Sample store holding the in-progress request only. -/
def inProgressDB : DB := ⟨[inProgressDoc], [], []⟩

/-- Sample user document for the support actor. -/
def supportUser : UserDoc := ⟨"u-sup", "soporte1", "Juan Pérez", "Directivos", "support"⟩

/-- Sample store holding the pending request and the support user. -/
def userDB : DB := ⟨[pendingDoc], [], [supportUser]⟩

/-- Sample creation payload. -/
def samplePayloadCreate : RequestCreate :=
  ⟨"T", "D", "Alta", "Soporte", "Sistema", none, none, none, none, none⟩

/-- Sample stored request carrying the legacy status label "Completada". -/
def completadaDoc : RequestDoc := { pendingDoc with status := some "Completada" }

/-- Sample ticket group for the time-by-state instance: Pendiente at t0,
En progreso at t0+2h, Finalizada at t0+5h. -/
def sampleGroup : TicketGroup :=
  ⟨"T1", ("Pendiente", "u0", 0), [("En progreso", "u0", 7200), ("Finalizada", "u0", 18000)]⟩

/-- The flat event list of the sample group. -/
def sampleEvents : List EventRec :=
  [⟨"T1", "Pendiente", "u0", 0⟩, ⟨"T1", "En progreso", "u0", 7200⟩,
   ⟨"T1", "Finalizada", "u0", 18000⟩]

/-- Helper: finding after the update performed by update_one returns
the transformed document, provided the transformer preserves ids. -/
theorem findDoc_updateDocs (l : List RequestDoc) (request_id : String) (d : RequestDoc)
    (f : RequestDoc → RequestDoc)
    (h : findDoc l request_id = some d)
    (hid : (f d).id = d.id) :
    findDoc (updateDocs l request_id f) request_id = some (f d) := by
  induction l with
  | nil => simp [findDoc] at h
  | cons a l ih =>
    by_cases ha : a.id = request_id
    · rw [findDoc, if_pos ha] at h
      injection h with h2
      subst h2
      rw [updateDocs, if_pos ha, findDoc, if_pos (by rw [hid, ha])]
    · rw [findDoc, if_neg ha] at h
      rw [updateDocs, if_neg ha, findDoc, if_neg ha]
      exact ih h

/-- Helper: findRequest after an update_one on the same id. -/
theorem findRequest_updateRequest (db : DB) (request_id : String) (d : RequestDoc)
    (f : RequestDoc → RequestDoc)
    (h : findRequest db request_id = some d) (hid : (f d).id = d.id) :
    findRequest (updateRequest db request_id f) request_id = some (f d) :=
  findDoc_updateDocs db.requests request_id d f h hid

/-- Helper: findRequest is unaffected by an event-log insert. -/
theorem findRequest_insertEvent (db : DB) (e : EventRec) (request_id : String) :
    findRequest (insertEvent db e) request_id = findRequest db request_id := rfl

/-- Helper: an update_one commutes with an event-log insert. -/
theorem updateRequest_insertEvent (db : DB) (e : EventRec) (request_id : String)
    (f : RequestDoc → RequestDoc) :
    updateRequest (insertEvent db e) request_id f
      = insertEvent (updateRequest db request_id f) e := rfl

/-- Helper: transitionUpd preserves the document id. -/
theorem transitionUpd_id (cs : String) (p : TransitionPayload) (u : Actor)
    (now : Timestamp) (r : RequestDoc) : (transitionUpd cs p u now r).id = r.id := by
  by_cases hF : p.to_status = "Finalizada" <;>
  by_cases hR : p.to_status = "Rechazada" <;>
  by_cases hE : p.to_status = "En revisión" <;>
    first
    | (rw [hF] at hR; exact absurd hR (by decide))
    | (rw [hF] at hE; exact absurd hE (by decide))
    | (rw [hR] at hE; exact absurd hE (by decide))
    | (simp [transitionUpd, hF, hR, hE]; try (split <;> rfl))

/-- Helper: transitionUpd appends exactly one StateEvent. -/
theorem transitionUpd_history (cs : String) (p : TransitionPayload) (u : Actor)
    (now : Timestamp) (r : RequestDoc) :
    (transitionUpd cs p u now r).state_history
      = r.state_history ++ [⟨some cs, p.to_status, now, u.id, u.full_name⟩] := by
  by_cases hF : p.to_status = "Finalizada" <;>
  by_cases hR : p.to_status = "Rechazada" <;>
  by_cases hE : p.to_status = "En revisión" <;>
    first
    | (rw [hF] at hR; exact absurd hR (by decide))
    | (rw [hF] at hE; exact absurd hE (by decide))
    | (rw [hR] at hE; exact absurd hE (by decide))
    | (simp [transitionUpd, hF, hR, hE]; try (split <;> rfl))

/-- Helper: transitionUpd sets completion_date exactly when the target
is Finalizada or Rechazada, and keeps it unchanged otherwise. -/
theorem transitionUpd_completion (cs : String) (p : TransitionPayload) (u : Actor)
    (now : Timestamp) (r : RequestDoc) :
    (transitionUpd cs p u now r).completion_date
      = if p.to_status = "Finalizada" ∨ p.to_status = "Rechazada" then some now
        else r.completion_date := by
  by_cases hF : p.to_status = "Finalizada" <;>
  by_cases hR : p.to_status = "Rechazada" <;>
  by_cases hE : p.to_status = "En revisión" <;>
    first
    | (rw [hF] at hR; exact absurd hR (by decide))
    | (rw [hF] at hE; exact absurd hE (by decide))
    | (rw [hR] at hE; exact absurd hE (by decide))
    | (simp [transitionUpd, hF, hR, hE]; try (split <;> rfl))

/-- Helper: transitionUpd leaves reabierto_count unchanged when the
rework condition does not hold. -/
theorem transitionUpd_reabierto (cs : String) (p : TransitionPayload) (u : Actor)
    (now : Timestamp) (r : RequestDoc)
    (h : ¬(cs = "Finalizada" ∧ p.to_status ∈ OPEN_STATES)) :
    (transitionUpd cs p u now r).reabierto_count = r.reabierto_count := by
  simp only [transitionUpd]
  rw [if_neg h]
  by_cases hF : p.to_status = "Finalizada" <;>
  by_cases hR : p.to_status = "Rechazada" <;>
  by_cases hE : p.to_status = "En revisión" <;>
    first
    | (rw [hF] at hR; exact absurd hR (by decide))
    | (rw [hF] at hE; exact absurd hE (by decide))
    | (rw [hR] at hE; exact absurd hE (by decide))
    | simp [hF, hR, hE]

/-- Helper: a target allowed from the current status is never a
transition out of Finalizada (its row in the table is empty). -/
theorem allowed_not_finalizada {cs to_st : String}
    (h : to_st ∈ ALLOWED_TRANSITIONS cs) :
    ¬(cs = "Finalizada" ∧ to_st ∈ OPEN_STATES) := by
  rintro ⟨h1, _⟩
  rw [h1] at h
  simp [ALLOWED_TRANSITIONS] at h


/-- C2 counterexample: a ticket whose stored status is Finalizada,
transitioned back to "En progreso", does not succeed: the handler
rejects the pair with InvalidTransition (the Finalizada row of
ALLOWED_TRANSITIONS is empty) and leaves the store, including
reabierto_count, untouched, so the reopening the claim describes never
increments anything. -/
theorem C2_counterexample :
    normalizeStatus finalizedDoc.status = "Finalizada" ∧
    transition_request finalizedDB "r1" ⟨"En progreso", none, none⟩ supportActor 5
      = (finalizedDB, .error .invalidTransition) := ⟨rfl, rfl⟩

/-- C2 (amended): for every stored ticket whose normalized status is
Finalizada and every target open state (in particular "En progreso"),
the transition fails with InvalidTransition and the store — hence
reabierto_count — is left entirely unchanged; the rework increment is
unreachable because the Finalizada row of the transition table is
empty. -/
theorem C2_finalized_terminal (db : DB) (request_id : String) (d : RequestDoc)
    (p : TransitionPayload) (u : Actor) (now : Timestamp)
    (hfind : findRequest db request_id = some d)
    (hst : normalizeStatus d.status = "Finalizada")
    (_hto : p.to_status ∈ OPEN_STATES) :
    transition_request db request_id p u now = (db, .error .invalidTransition) := by
  simp only [transition_request, hfind]
  rw [hst]
  rw [if_neg (by simp [ALLOWED_TRANSITIONS])]

/-- C2 witness: the amended statement applied to the concrete finalized
store. -/
theorem C2_finalized_terminal_witness :
    transition_request finalizedDB "r1" ⟨"En progreso", none, none⟩ supportActor 5
      = (finalizedDB, .error .invalidTransition) :=
  C2_finalized_terminal finalizedDB "r1" finalizedDoc ⟨"En progreso", none, none⟩
    supportActor 5 rfl rfl (by decide)

/-- C4: at request creation the handler appends the synthetic StateEvent
(from_status = null) to the new ticket's state_history, but inserts no
matching record into the ticket_status_events store: the insert sits in
unreachable code after the return statement.  Evaluated on a concrete
creation: the Event Log is unchanged while the created ticket's history
holds exactly one StateEvent. -/
theorem C4_creation_event_log_missing :
    (create_request pendingDB samplePayloadCreate supportActor 0 "r9").1.ticket_status_events
      = pendingDB.ticket_status_events ∧
    ((create_request pendingDB samplePayloadCreate supportActor 0 "r9").2.toOption.map
       (fun r => (r.state_history.length, r.state_history.map (fun e => e.from_status))))
      = some (1, [none]) := ⟨rfl, rfl⟩

/-- C8: status normalization runs in _to_request, the single
materialization point of every read path: the legacy label "Completada"
is mapped to Finalizada, the materialized status always equals the
normalized stored status, that normalized status always lies in the
canonical 5-state set, and any status that is not canonical after
synonym mapping defaults to Pendiente. -/
theorem C8_normalization (d : RequestDoc) :
    (d.status = some "Completada" → (to_request d).status = some "Finalizada") ∧
    (to_request d).status = some (normalizeStatus d.status) ∧
    normalizeStatus d.status ∈ VALID_STATUSES ∧
    (∀ s, d.status = some s → applySynonym s ∉ VALID_STATUSES →
      (to_request d).status = some "Pendiente") := by
  refine ⟨?_, rfl, ?_, ?_⟩
  · intro h
    show some (normalizeStatus d.status) = some "Finalizada"
    rw [h]
    rfl
  · by_cases h2 : applySynonym (d.status.getD "Pendiente") ∈ VALID_STATUSES
    · simp [normalizeStatus, h2]
    · simp [normalizeStatus, h2]
      decide
  · intro s hs hns
    show some (normalizeStatus d.status) = some "Pendiente"
    simp [normalizeStatus, hs, hns]

/-- C8 witness: the normalization facts evaluated on a concrete stored
document carrying the legacy label "Completada". -/
theorem C8_normalization_witness :
    (to_request completadaDoc).status = some "Finalizada" ∧
    normalizeStatus completadaDoc.status ∈ VALID_STATUSES :=
  ⟨(C8_normalization completadaDoc).1 rfl, (C8_normalization completadaDoc).2.2.1⟩

/-- Helper: _to_request does not change the rejection_reason field. -/
theorem to_request_rejection (d : RequestDoc) :
    (to_request d).rejection_reason = d.rejection_reason := rfl

/-- Helper: _to_request does not change the completion_date field. -/
theorem to_request_completion (d : RequestDoc) :
    (to_request d).completion_date = d.completion_date := rfl

/-- Helper: _to_request does not change the review_evidence field. -/
theorem to_request_review (d : RequestDoc) :
    (to_request d).review_evidence = d.review_evidence := rfl

/-- Helper: transitionUpd writes the trimmed comment as rejection_reason
when the target is Rechazada. -/
theorem transitionUpd_rejection (cs : String) (p : TransitionPayload) (u : Actor)
    (now : Timestamp) (r : RequestDoc) (h : p.to_status = "Rechazada") :
    (transitionUpd cs p u now r).rejection_reason
      = some (pyStrip (p.comment.getD "")) := by
  simp [transitionUpd, h, OPEN_STATES]

/-- Helper: transitionUpd writes the review evidence dictionary when the
target is En revisión. -/
theorem transitionUpd_review (cs : String) (p : TransitionPayload) (u : Actor)
    (now : Timestamp) (r : RequestDoc) (h : p.to_status = "En revisión") :
    (transitionUpd cs p u now r).review_evidence
      = some ⟨"link", pyStrip (p.evidence_link.getD ""), u.id, now⟩ := by
  by_cases hCs : cs = "Finalizada" <;>
  simp [transitionUpd, h, hCs, OPEN_STATES]

/-- C1 counterexample: the pair (Pendiente, Rechazada) is in the allowed
transition table, yet the transition does not succeed when the comment
is absent: it fails with the 422 ValidationError, so the claim that
every table pair makes the operation succeed is false as stated. -/
theorem C1_counterexample :
    "Rechazada" ∈ ALLOWED_TRANSITIONS (normalizeStatus pendingDoc.status) ∧
    transition_request pendingDB "r1" ⟨"Rechazada", none, none⟩ supportActor 5
      = (pendingDB, .error .validationError) := ⟨by decide, rfl⟩

/-- C1 (amended): for every stored ticket, a target outside the allowed
row of the transition table always fails with InvalidTransition and
leaves the store entirely unchanged; a target inside the row succeeds —
provided the Rechazada comment requirement and the En revisión
permission and evidence requirements are met — and then appends exactly
one flat record to the Event Log and exactly one StateEvent to the
ticket's state_history. -/
theorem C1_transition_table (db : DB) (request_id : String) (d : RequestDoc)
    (p : TransitionPayload) (u : Actor) (now : Timestamp)
    (hfind : findRequest db request_id = some d) :
    (p.to_status ∉ ALLOWED_TRANSITIONS (normalizeStatus d.status) →
      transition_request db request_id p u now = (db, .error .invalidTransition)) ∧
    (p.to_status ∈ ALLOWED_TRANSITIONS (normalizeStatus d.status) →
     (p.to_status = "Rechazada" → isBlank p.comment = false) →
     (p.to_status = "En revisión" →
       (some u.id = d.assigned_to ∨ some u.id = d.assigned_by_id ∨ u.role = "admin") ∧
       isBlank p.evidence_link = false) →
     (transition_request db request_id p u now).2.isOk = true ∧
     (transition_request db request_id p u now).1.ticket_status_events
       = db.ticket_status_events ++ [⟨request_id, p.to_status, u.id, now⟩] ∧
     ((findRequest (transition_request db request_id p u now).1 request_id).map
        (fun d2 => d2.state_history))
       = some (d.state_history ++
           [⟨some (normalizeStatus d.status), p.to_status, now, u.id, u.full_name⟩])) := by
  constructor
  · intro hmem
    simp only [transition_request, hfind]
    rw [if_neg hmem]
  · intro hmem hcom hrev
    have hc2 : ¬(p.to_status = "Rechazada" ∧ isBlank p.comment = true) := by
      rintro ⟨h1, h2⟩
      rw [hcom h1] at h2
      cases h2
    have hc3 : ¬(p.to_status = "En revisión" ∧
        ¬(some u.id = d.assigned_to ∨ some u.id = d.assigned_by_id) ∧ u.role ≠ "admin") := by
      rintro ⟨h1, h2, h3⟩
      rcases (hrev h1).1 with hA | hB | hC
      · exact h2 (Or.inl hA)
      · exact h2 (Or.inr hB)
      · exact h3 hC
    have hc4 : ¬(p.to_status = "En revisión" ∧ isBlank p.evidence_link = true) := by
      rintro ⟨h1, h2⟩
      rw [(hrev h1).2] at h2
      cases h2
    simp only [transition_request, hfind]
    rw [if_pos hmem, if_neg hc2, if_neg hc3, if_neg hc4]
    refine ⟨rfl, rfl, ?_⟩
    rw [findRequest_insertEvent]
    rw [findRequest_updateRequest db request_id d _ hfind (transitionUpd_id _ _ _ _ _)]
    simp [transitionUpd_history]

/-- C1 witness: the amended statement applied to the concrete pending
store and the allowed pair (Pendiente, En progreso). -/
theorem C1_transition_table_witness :
    (transition_request pendingDB "r1" ⟨"En progreso", none, none⟩ supportActor 5).2.isOk = true ∧
    (transition_request pendingDB "r1" ⟨"En progreso", none, none⟩ supportActor 5).1.ticket_status_events
      = pendingDB.ticket_status_events ++ [⟨"r1", "En progreso", "u-sup", 5⟩] ∧
    ((findRequest (transition_request pendingDB "r1" ⟨"En progreso", none, none⟩ supportActor 5).1 "r1").map
       (fun d2 => d2.state_history))
      = some (pendingDoc.state_history ++
          [⟨some (normalizeStatus pendingDoc.status), "En progreso", 5, "u-sup", "Juan Pérez"⟩]) :=
  (C1_transition_table pendingDB "r1" pendingDoc ⟨"En progreso", none, none⟩
      supportActor 5 rfl).2 (by decide) (by decide) (by decide)

/-- C5 counterexample: an in-progress ticket sent to review by an actor
who is neither the assignee nor the assigner nor an admin, with a blank
evidence link, fails with Forbidden — not with the ValidationError the
claim prescribes for a blank evidence link — because the permission
check runs first. -/
theorem C5_counterexample :
    isBlank (none : Option String) = true ∧
    transition_request inProgressDB "r1" ⟨"En revisión", none, none⟩
      ⟨"u-z", "Nadie", "Directivos", "support"⟩ 5
      = (inProgressDB, .error .forbidden) ∧
    ApiError.forbidden ≠ ApiError.validationError := ⟨rfl, rfl, by decide⟩

/-- C5 (amended): for a ticket in En progreso and a transition to
En revisión, the permission check precedes the evidence check: an actor
who is neither the current assignee, the assigner, nor an admin gets
Forbidden regardless of the evidence link; a permitted actor with an
absent or blank evidence link gets ValidationError; and a permitted
actor with a non-blank link succeeds with review_evidence = (link url,
trimmed link, actor id, now). -/
theorem C5_review_rules (db : DB) (request_id : String) (d : RequestDoc)
    (p : TransitionPayload) (u : Actor) (now : Timestamp)
    (hfind : findRequest db request_id = some d)
    (hst : normalizeStatus d.status = "En progreso")
    (hto : p.to_status = "En revisión") :
    (¬(some u.id = d.assigned_to ∨ some u.id = d.assigned_by_id ∨ u.role = "admin") →
      transition_request db request_id p u now = (db, .error .forbidden)) ∧
    ((some u.id = d.assigned_to ∨ some u.id = d.assigned_by_id ∨ u.role = "admin") →
     isBlank p.evidence_link = true →
      transition_request db request_id p u now = (db, .error .validationError)) ∧
    ((some u.id = d.assigned_to ∨ some u.id = d.assigned_by_id ∨ u.role = "admin") →
     isBlank p.evidence_link = false →
      ((transition_request db request_id p u now).2.toOption.map
         (fun r => r.review_evidence))
        = some (some ⟨"link", pyStrip (p.evidence_link.getD ""), u.id, now⟩)) := by
  have hmem : p.to_status ∈ ALLOWED_TRANSITIONS (normalizeStatus d.status) := by
    rw [hst, hto]
    decide
  have hc2 : ¬(p.to_status = "Rechazada" ∧ isBlank p.comment = true) := by
    rintro ⟨h1, _⟩
    rw [hto] at h1
    exact absurd h1 (by decide)
  refine ⟨?_, ?_, ?_⟩
  · intro hn
    simp only [transition_request, hfind]
    rw [if_pos hmem, if_neg hc2,
        if_pos ⟨hto, fun hAB => hn (hAB.elim Or.inl (fun hb => Or.inr (Or.inl hb))),
                fun hC => hn (Or.inr (Or.inr hC))⟩]
  · intro hpriv hblank
    have hc3 : ¬(p.to_status = "En revisión" ∧
        ¬(some u.id = d.assigned_to ∨ some u.id = d.assigned_by_id) ∧ u.role ≠ "admin") := by
      rintro ⟨_, h2, h3⟩
      rcases hpriv with hA | hB | hC
      · exact h2 (Or.inl hA)
      · exact h2 (Or.inr hB)
      · exact h3 hC
    simp only [transition_request, hfind]
    rw [if_pos hmem, if_neg hc2, if_neg hc3, if_pos ⟨hto, hblank⟩]
  · intro hpriv hblank
    have hc3 : ¬(p.to_status = "En revisión" ∧
        ¬(some u.id = d.assigned_to ∨ some u.id = d.assigned_by_id) ∧ u.role ≠ "admin") := by
      rintro ⟨_, h2, h3⟩
      rcases hpriv with hA | hB | hC
      · exact h2 (Or.inl hA)
      · exact h2 (Or.inr hB)
      · exact h3 hC
    have hc4 : ¬(p.to_status = "En revisión" ∧ isBlank p.evidence_link = true) := by
      rintro ⟨_, h2⟩
      rw [hblank] at h2
      cases h2
    simp only [transition_request, hfind]
    rw [if_pos hmem, if_neg hc2, if_neg hc3, if_neg hc4]
    simp [Except.toOption, to_request_review, transitionUpd_review _ _ _ _ _ hto]

/-- C5 witness: the amended statement applied to the concrete
in-progress store, once for the assignee actor with evidence present
and once showing the ValidationError for a permitted actor with no
link. -/
theorem C5_review_rules_witness :
    transition_request inProgressDB "r1" ⟨"En revisión", none, none⟩
      ⟨"u-a", "Asignado", "Directivos", "support"⟩ 5
      = (inProgressDB, .error .validationError) ∧
    ((transition_request inProgressDB "r1" ⟨"En revisión", none, some " http://x "⟩
        ⟨"u-a", "Asignado", "Directivos", "support"⟩ 5).2.toOption.map
       (fun r => r.review_evidence))
      = some (some ⟨"link", "http://x", "u-a", 5⟩) :=
  ⟨(C5_review_rules inProgressDB "r1" inProgressDoc ⟨"En revisión", none, none⟩
      ⟨"u-a", "Asignado", "Directivos", "support"⟩ 5 rfl rfl rfl).2.1
      (by decide) rfl,
   (C5_review_rules inProgressDB "r1" inProgressDoc ⟨"En revisión", none, some " http://x "⟩
      ⟨"u-a", "Asignado", "Directivos", "support"⟩ 5 rfl rfl rfl).2.2
      (by decide) rfl⟩

/-- C6: for a ticket in Pendiente and a transition to Rechazada, an
absent or blank comment fails with ValidationError and leaves the store
unchanged; a non-blank comment succeeds, the returned ticket's
rejection_reason is the trimmed comment and its completion_date is now;
and in general every successful transition sets completion_date to now
exactly when it lands in Finalizada or Rechazada, leaving it unchanged
otherwise. -/
theorem C6_reject_rules (db : DB) (request_id : String) (d : RequestDoc)
    (p : TransitionPayload) (u : Actor) (now : Timestamp)
    (hfind : findRequest db request_id = some d)
    (hst : normalizeStatus d.status = "Pendiente")
    (hto : p.to_status = "Rechazada") :
    (isBlank p.comment = true →
      transition_request db request_id p u now = (db, .error .validationError)) ∧
    (isBlank p.comment = false →
      ((transition_request db request_id p u now).2.toOption.map
         (fun r => (r.rejection_reason, r.completion_date)))
        = some (some (pyStrip (p.comment.getD "")), some now)) ∧
    (∀ db2 id2 d2 p2 u2 now2 r2,
      findRequest db2 id2 = some d2 →
      (transition_request db2 id2 p2 u2 now2).2 = .ok r2 →
      r2.completion_date
        = if p2.to_status = "Finalizada" ∨ p2.to_status = "Rechazada" then some now2
          else d2.completion_date) := by
  have hmem : p.to_status ∈ ALLOWED_TRANSITIONS (normalizeStatus d.status) := by
    rw [hst, hto]
    decide
  refine ⟨?_, ?_, ?_⟩
  · intro hblank
    simp only [transition_request, hfind]
    rw [if_pos hmem, if_pos ⟨hto, hblank⟩]
  · intro hblank
    have hc2 : ¬(p.to_status = "Rechazada" ∧ isBlank p.comment = true) := by
      rintro ⟨_, h2⟩
      rw [hblank] at h2
      cases h2
    have hc3 : ¬(p.to_status = "En revisión" ∧
        ¬(some u.id = d.assigned_to ∨ some u.id = d.assigned_by_id) ∧ u.role ≠ "admin") := by
      rintro ⟨h1, _⟩
      rw [hto] at h1
      exact absurd h1 (by decide)
    have hc4 : ¬(p.to_status = "En revisión" ∧ isBlank p.evidence_link = true) := by
      rintro ⟨h1, _⟩
      rw [hto] at h1
      exact absurd h1 (by decide)
    simp only [transition_request, hfind]
    rw [if_pos hmem, if_neg hc2, if_neg hc3, if_neg hc4]
    simp [Except.toOption, to_request_rejection, to_request_completion,
          transitionUpd_rejection _ _ _ _ _ hto, transitionUpd_completion, hto]
  · intro db2 id2 d2 p2 u2 now2 r2 hfind2 hok
    simp only [transition_request, hfind2] at hok
    by_cases m1 : p2.to_status ∈ ALLOWED_TRANSITIONS (normalizeStatus d2.status)
    · rw [if_pos m1] at hok
      by_cases m2 : p2.to_status = "Rechazada" ∧ isBlank p2.comment = true
      · rw [if_pos m2] at hok
        simp at hok
      · rw [if_neg m2] at hok
        by_cases m3 : p2.to_status = "En revisión" ∧
            ¬(some u2.id = d2.assigned_to ∨ some u2.id = d2.assigned_by_id) ∧
            u2.role ≠ "admin"
        · rw [if_pos m3] at hok
          simp at hok
        · rw [if_neg m3] at hok
          by_cases m4 : p2.to_status = "En revisión" ∧ isBlank p2.evidence_link = true
          · rw [if_pos m4] at hok
            simp at hok
          · rw [if_neg m4] at hok
            simp at hok
            rw [← hok, to_request_completion, transitionUpd_completion]
    · rw [if_neg m1] at hok
      simp at hok

/-- C6 witness: the statement applied to the concrete pending store,
showing the ValidationError for a blank comment and the trimmed
rejection_reason plus completion_date for a real comment. -/
theorem C6_reject_rules_witness :
    transition_request pendingDB "r1" ⟨"Rechazada", some "   ", none⟩ supportActor 5
      = (pendingDB, .error .validationError) ∧
    ((transition_request pendingDB "r1" ⟨"Rechazada", some "  motivo ", none⟩
        supportActor 5).2.toOption.map
       (fun r => (r.rejection_reason, r.completion_date)))
      = some (some "motivo", some 5) :=
  ⟨(C6_reject_rules pendingDB "r1" pendingDoc ⟨"Rechazada", some "   ", none⟩
      supportActor 5 rfl rfl rfl).1 rfl,
   (C6_reject_rules pendingDB "r1" pendingDoc ⟨"Rechazada", some "  motivo ", none⟩
      supportActor 5 rfl rfl rfl).2.1 rfl⟩

/-- Helper: the id of a found user equals the id it was looked up by. -/
theorem findUserDoc_id (l : List UserDoc) (uid : String) (tu : UserDoc)
    (h : findUserDoc l uid = some tu) : tu.id = uid := by
  induction l with
  | nil => simp [findUserDoc] at h
  | cons a l ih =>
    rw [findUserDoc] at h
    by_cases ha : a.id = uid
    · rw [if_pos ha] at h
      injection h with h2
      rw [← h2]
      exact ha
    · rw [if_neg ha] at h
      exact ih h

/-- Helper: update_one through a reabierto-preserving transformer keeps
every stored reabierto_count at zero. -/
theorem reabierto_updateDocs (l : List RequestDoc) (request_id : String)
    (f : RequestDoc → RequestDoc)
    (hf : ∀ r, (f r).reabierto_count = r.reabierto_count)
    (hl : ∀ r ∈ l, r.reabierto_count = 0) :
    ∀ r ∈ updateDocs l request_id f, r.reabierto_count = 0 := by
  induction l with
  | nil => intro r hr; simp [updateDocs] at hr
  | cons a l ih =>
    intro r hr
    rw [updateDocs] at hr
    rcases List.mem_cons.mp hr with h | h
    · subst h
      by_cases ha : a.id = request_id
      · rw [if_pos ha, hf]
        exact hl a (List.mem_cons_self a l)
      · rw [if_neg ha]
        exact hl a (List.mem_cons_self a l)
    · exact ih (fun r2 hr2 => hl r2 (List.mem_cons_of_mem a hr2)) r h

/-- Helper: the $set of provided generic-update fields never touches
reabierto_count. -/
theorem applyGenericSet_reabierto (pu : RequestUpdate) (now : Timestamp) (r : RequestDoc) :
    (applyGenericSet pu now r).reabierto_count = r.reabierto_count := by
  rcases pu with ⟨ps, pa, ph, pd⟩
  cases ps <;> cases pa <;> cases ph <;> cases pd <;> rfl

/-- Helper: the assigned_to_name resolution never touches
reabierto_count. -/
theorem genericNameSet_reabierto (db : DB) (pu : RequestUpdate) (r : RequestDoc) :
    (genericNameSet db pu r).reabierto_count = r.reabierto_count := by
  cases hpt : providedTruthy pu.assigned_to with
  | none => simp [genericNameSet, hpt]
  | some a =>
    cases hu : findUser db a with
    | none => simp [genericNameSet, hpt, hu]
    | some usr => simp [genericNameSet, hpt, hu]

/-- Helper: the generic status-change update leaves reabierto_count
unchanged when the rework condition does not hold. -/
theorem genericTransitionUpd_reabierto (db : DB) (cs s : String) (pu : RequestUpdate)
    (u : Actor) (now : Timestamp) (r : RequestDoc)
    (h : ¬(cs = "Finalizada" ∧ s ∈ OPEN_STATES)) :
    (genericTransitionUpd db cs s pu u now r).reabierto_count = r.reabierto_count := by
  simp only [genericTransitionUpd]
  rw [if_neg h]
  by_cases hFs : s = "Finalizada" ∨ s = "Rechazada" <;>
    simp [hFs, genericNameSet_reabierto, applyGenericSet_reabierto]

/-- Helper: create_request either leaves the requests collection alone
(an error path) or appends one document with reabierto_count zero. -/
theorem create_request_requests (db : DB) (p : RequestCreate) (u : Actor)
    (now : Timestamp) (newId : String) :
    (create_request db p u now newId).1.requests = db.requests ∨
    ∃ r0, (create_request db p u now newId).1.requests = db.requests ++ [r0] ∧
      r0.reabierto_count = 0 := by
  simp only [create_request]
  by_cases hrole : u.role = "admin"
  · rw [if_pos hrole]
    cases hpa : p.assigned_to with
    | none => right; exact ⟨_, rfl, rfl⟩
    | some a =>
      dsimp only
      by_cases ha : a = ""
      · rw [if_pos ha]
        right; exact ⟨_, rfl, rfl⟩
      · rw [if_neg ha]
        cases hu : findUser db a with
        | none => left; rfl
        | some usr => right; exact ⟨_, rfl, rfl⟩
  · rw [if_neg hrole]
    right; exact ⟨_, rfl, rfl⟩

/-- Helper: request creation keeps the all-zero rework invariant. -/
theorem create_preserves_zero (db : DB) (p : RequestCreate) (u : Actor)
    (now : Timestamp) (newId : String)
    (hdb : ∀ r ∈ db.requests, r.reabierto_count = 0) :
    ∀ r ∈ (create_request db p u now newId).1.requests, r.reabierto_count = 0 := by
  intro r hr
  rcases create_request_requests db p u now newId with h | ⟨r0, h, h0⟩
  · rw [h] at hr
    exact hdb r hr
  · rw [h] at hr
    rcases List.mem_append.mp hr with h2 | h2
    · exact hdb r h2
    · rw [List.mem_singleton.mp h2]
      exact h0

/-- Helper: the dedicated transition handler keeps the all-zero rework
invariant: its increment branch is unreachable because the validated
target is never an outgoing transition of Finalizada. -/
theorem transition_preserves_zero (db : DB) (request_id : String)
    (p : TransitionPayload) (u : Actor) (now : Timestamp)
    (hdb : ∀ r ∈ db.requests, r.reabierto_count = 0) :
    ∀ r ∈ (transition_request db request_id p u now).1.requests, r.reabierto_count = 0 := by
  unfold transition_request
  cases hfind : findRequest db request_id with
  | none => exact hdb
  | some d =>
    dsimp only
    by_cases m1 : p.to_status ∈ ALLOWED_TRANSITIONS (normalizeStatus d.status)
    · rw [if_pos m1]
      by_cases m2 : p.to_status = "Rechazada" ∧ isBlank p.comment = true
      · rw [if_pos m2]; exact hdb
      · rw [if_neg m2]
        by_cases m3 : p.to_status = "En revisión" ∧
            ¬(some u.id = d.assigned_to ∨ some u.id = d.assigned_by_id) ∧ u.role ≠ "admin"
        · rw [if_pos m3]; exact hdb
        · rw [if_neg m3]
          by_cases m4 : p.to_status = "En revisión" ∧ isBlank p.evidence_link = true
          · rw [if_pos m4]; exact hdb
          · rw [if_neg m4]
            exact reabierto_updateDocs db.requests request_id _
              (fun r => transitionUpd_reabierto _ _ _ _ r (allowed_not_finalizada m1)) hdb
    · rw [if_neg m1]; exact hdb

/-- Helper: the generic update handler keeps the all-zero rework
invariant, for the same reason. -/
theorem update_generic_preserves_zero (db : DB) (request_id : String)
    (pu : RequestUpdate) (u : Actor) (now : Timestamp)
    (hdb : ∀ r ∈ db.requests, r.reabierto_count = 0) :
    ∀ r ∈ (update_request_generic db request_id pu u now).1.requests,
      r.reabierto_count = 0 := by
  unfold update_request_generic
  cases hfind : findRequest db request_id with
  | none => exact hdb
  | some d =>
    dsimp only
    cases hpt : providedTruthy pu.status with
    | none =>
      exact reabierto_updateDocs db.requests request_id _
        (fun r => by rw [genericNameSet_reabierto, applyGenericSet_reabierto]) hdb
    | some s =>
      dsimp only
      by_cases hse : s = normalizeStatus d.status
      · rw [if_pos hse]
        exact reabierto_updateDocs db.requests request_id _
          (fun r => by rw [genericNameSet_reabierto, applyGenericSet_reabierto]) hdb
      · rw [if_neg hse]
        by_cases m1 : s ∈ ALLOWED_TRANSITIONS (normalizeStatus d.status)
        · rw [if_pos m1]
          exact reabierto_updateDocs db.requests request_id _
            (fun r => genericTransitionUpd_reabierto db _ s pu u now r
              (allowed_not_finalizada m1)) hdb
        · rw [if_neg m1]; exact hdb

/-- Helper: classify keeps the all-zero rework invariant. -/
theorem classify_preserves_zero (db : DB) (request_id : String) (lvl : Int)
    (pr : String) (now : Timestamp)
    (hdb : ∀ r ∈ db.requests, r.reabierto_count = 0) :
    ∀ r ∈ (classify_request db request_id lvl pr now).1.requests,
      r.reabierto_count = 0 := by
  unfold classify_request
  cases hfind : findRequest db request_id with
  | none => exact hdb
  | some d =>
    dsimp only
    exact reabierto_updateDocs db.requests request_id _ (fun r => rfl) hdb

/-- Helper: assign keeps the all-zero rework invariant. -/
theorem assign_preserves_zero (db : DB) (request_id : String) (p : AssignPayload)
    (u : Actor) (now : Timestamp)
    (hdb : ∀ r ∈ db.requests, r.reabierto_count = 0) :
    ∀ r ∈ (assign_request db request_id p u now).1.requests, r.reabierto_count = 0 := by
  unfold assign_request
  cases hfind : findRequest db request_id with
  | none => exact hdb
  | some d =>
    dsimp only
    cases hu : findUser db (pyOrId p.assigned_to u.id) with
    | none => exact hdb
    | some tu =>
      dsimp only
      exact reabierto_updateDocs db.requests request_id _ (fun r => rfl) hdb

/-- Helper: unassign keeps the all-zero rework invariant. -/
theorem unassign_preserves_zero (db : DB) (request_id : String) (p : AssignPayload)
    (u : Actor) (now : Timestamp)
    (hdb : ∀ r ∈ db.requests, r.reabierto_count = 0) :
    ∀ r ∈ (unassign_request db request_id p u now).1.requests, r.reabierto_count = 0 := by
  unfold unassign_request
  cases hfind : findRequest db request_id with
  | none => exact hdb
  | some d =>
    dsimp only
    cases hu : findUser db (pyOrId p.assigned_to u.id) with
    | none => exact hdb
    | some tu =>
      dsimp only
      exact reabierto_updateDocs db.requests request_id _ (fun r => rfl) hdb

/-- Helper: submit_feedback keeps the all-zero rework invariant. -/
theorem feedback_preserves_zero (db : DB) (request_id : String) (p : FeedbackPayload)
    (u : Actor) (now : Timestamp)
    (hdb : ∀ r ∈ db.requests, r.reabierto_count = 0) :
    ∀ r ∈ (submit_feedback db request_id p u now).1.requests, r.reabierto_count = 0 := by
  unfold submit_feedback
  cases hfind : findRequest db request_id with
  | none => exact hdb
  | some d =>
    dsimp only
    by_cases h1 : u.role ≠ "admin" ∧ d.requester_id ≠ u.id
    · rw [if_pos h1]; exact hdb
    · rw [if_neg h1]
      by_cases h2 : normalizeStatus d.status ≠ "Finalizada"
      · rw [if_pos h2]; exact hdb
      · rw [if_neg h2]
        cases hfb : d.feedback with
        | some fb => exact hdb
        | none => exact reabierto_updateDocs db.requests request_id _ (fun r => rfl) hdb

/-- C9: every ticket in a store reachable through the public operations
(creation, transition, generic update, classify, assign, unassign,
feedback) has reabierto_count = 0: tickets are created with the counter
at zero and both status-changing code paths validate against the
allowed-transitions table first, whose Finalizada row is empty, so the
rework increment branches are unreachable. -/
theorem C9_reabierto_always_zero (db : DB) (h : Reachable db) :
    ∀ r ∈ db.requests, r.reabierto_count = 0 := by
  induction h with
  | init users => intro r hr; simp at hr
  | create db p u now newId _ ih => exact create_preserves_zero db p u now newId ih
  | transition db id p u now _ ih => exact transition_preserves_zero db id p u now ih
  | update db id p u now _ ih => exact update_generic_preserves_zero db id p u now ih
  | classify db id lvl pr now _ ih => exact classify_preserves_zero db id lvl pr now ih
  | assign db id p u now _ ih => exact assign_preserves_zero db id p u now ih
  | unassign db id p u now _ ih => exact unassign_preserves_zero db id p u now ih
  | feedback db id p u now _ ih => exact feedback_preserves_zero db id p u now ih

/-- C9 witness: the invariant read off a concrete reachable store (one
creation applied to the empty store). -/
theorem C9_reabierto_always_zero_witness :
    ((create_request ⟨[], [], []⟩ samplePayloadCreate supportActor 0 "r1").1.requests.headD
        pendingDoc).reabierto_count = 0 :=
  C9_reabierto_always_zero _
    (Reachable.create ⟨[], [], []⟩ samplePayloadCreate supportActor 0 "r1"
      (Reachable.init [])) _ (by decide)

/-- C10: a successful unassign call never clears the assignee — it
resolves the target exactly like assign (the payload's assigned_to, or
the calling admin when none or a blank id is given), requires the target
user to exist, and afterwards the ticket's assignee is that non-null
target with name, estimated_hours and estimated_due overwritten by the
payload values; the result differs from the assign result only in not
recording assigned_by_id and assigned_by_name. -/
theorem C10_unassign_keeps_assignee (db : DB) (request_id : String)
    (payload : AssignPayload) (u : Actor) (now : Timestamp) (d : RequestDoc) (tu : UserDoc)
    (hfind : findRequest db request_id = some d)
    (huser : findUser db (pyOrId payload.assigned_to u.id) = some tu) :
    tu.id = pyOrId payload.assigned_to u.id ∧
    ((findRequest (unassign_request db request_id payload u now).1 request_id).map
       (fun r2 => (r2.assigned_to, r2.assigned_to_name, r2.estimated_hours,
                   r2.estimated_due, r2.assigned_by_id, r2.assigned_by_name)))
      = some (some tu.id, some tu.full_name, payload.estimated_hours,
              payload.estimated_due, d.assigned_by_id, d.assigned_by_name) ∧
    ((unassign_request db request_id payload u now).2.toOption.map
       (fun r2 => { r2 with assigned_by_id := some u.id,
                            assigned_by_name := some u.full_name }))
      = (assign_request db request_id payload u now).2.toOption := by
  refine ⟨findUserDoc_id db.users _ tu huser, ?_, ?_⟩
  · simp only [unassign_request, hfind, huser]
    rw [findRequest_updateRequest db request_id d _ hfind rfl]
    rfl
  · simp only [unassign_request, assign_request, hfind, huser]
    rfl

/-- C10 witness: the statement applied to the concrete store holding the
pending request and the support user, with the admin unassigning to
u-sup with 3 estimated hours. -/
theorem C10_unassign_keeps_assignee_witness :
    supportUser.id = pyOrId (some "u-sup") adminActor.id ∧
    ((findRequest (unassign_request userDB "r1" ⟨some "u-sup", some 3, none⟩
        adminActor 7).1 "r1").map
       (fun r2 => (r2.assigned_to, r2.assigned_to_name, r2.estimated_hours,
                   r2.estimated_due, r2.assigned_by_id, r2.assigned_by_name)))
      = some (some supportUser.id, some supportUser.full_name, some 3, none,
              pendingDoc.assigned_by_id, pendingDoc.assigned_by_name) ∧
    ((unassign_request userDB "r1" ⟨some "u-sup", some 3, none⟩ adminActor 7).2.toOption.map
       (fun r2 => { r2 with assigned_by_id := some adminActor.id,
                            assigned_by_name := some adminActor.full_name }))
      = (assign_request userDB "r1" ⟨some "u-sup", some 3, none⟩ adminActor 7).2.toOption :=
  C10_unassign_keeps_assignee userDB "r1" ⟨some "u-sup", some 3, none⟩ adminActor 7
    pendingDoc supportUser rfl rfl

/-- C3 counterexample: on a Pendiente ticket, the generic update with
status Rechazada (present and different from the current status)
succeeds, while the dedicated transition to Rechazada by the same actor
at the same time fails with ValidationError because no comment was
given: the two code paths do not share the same validation. -/
theorem C3_counterexample :
    (update_request_generic pendingDB "r1" ⟨some (some "Rechazada"), none, none, none⟩
        supportActor 5).2.isOk = true ∧
    (transition_request pendingDB "r1" ⟨"Rechazada", none, none⟩ supportActor 5).2
      = .error .validationError := ⟨rfl, rfl⟩

/-- C3 (amended): the equivalence holds for the targets without
branch-specific rules: for a payload carrying only a status s that is
"En progreso" or "Finalizada" and differs from the ticket's normalized
current status, the generic update is extensionally identical to the
dedicated transition with that target (same resulting store, history,
Event Log record, completion_date and result, for any comment and
evidence arguments); for the targets Rechazada and En revisión the
generic path skips the comment/evidence/permission validation and never
writes rejection_reason or review_evidence. -/
theorem C3_generic_update_equivalence (db : DB) (request_id : String) (u : Actor)
    (now : Timestamp) (s : String) (c e : Option String)
    (hs : s = "En progreso" ∨ s = "Finalizada")
    (hne : ∀ d, findRequest db request_id = some d → normalizeStatus d.status ≠ s) :
    update_request_generic db request_id ⟨some (some s), none, none, none⟩ u now
      = transition_request db request_id ⟨s, c, e⟩ u now := by
  have hsE : s ≠ "" := by rcases hs with rfl | rfl <;> decide
  have hsR : s ≠ "Rechazada" := by rcases hs with rfl | rfl <;> decide
  have hsV : s ≠ "En revisión" := by rcases hs with rfl | rfl <;> decide
  unfold update_request_generic transition_request
  cases hfind : findRequest db request_id with
  | none => rfl
  | some d =>
    dsimp only
    rw [show providedTruthy (some (some s)) = some s by simp [providedTruthy, hsE]]
    dsimp only
    rw [if_neg (fun h => hne d hfind h.symm)]
    by_cases m1 : s ∈ ALLOWED_TRANSITIONS (normalizeStatus d.status)
    · rw [if_pos m1, if_pos m1]
      rw [if_neg (show ¬(s = "Rechazada" ∧ isBlank c = true) from fun h => hsR h.1)]
      rw [if_neg (show ¬(s = "En revisión" ∧
            ¬(some u.id = d.assigned_to ∨ some u.id = d.assigned_by_id) ∧
            u.role ≠ "admin") from fun h => hsV h.1)]
      rw [if_neg (show ¬(s = "En revisión" ∧ isBlank e = true) from fun h => hsV h.1)]
      have hfun : genericTransitionUpd db (normalizeStatus d.status) s
            ⟨some (some s), none, none, none⟩ u now
          = transitionUpd (normalizeStatus d.status) ⟨s, c, e⟩ u now := by
        funext r
        rcases hs with rfl | rfl <;>
          simp [genericTransitionUpd, transitionUpd, applyGenericSet, genericNameSet,
                providedTruthy, OPEN_STATES]
      rw [updateRequest_insertEvent, hfun]
    · rw [if_neg m1, if_neg m1]

/-- Helper: adding the zero totals is the identity. -/
theorem addFn_zero (f : String → ℚ) : addFn f (fun _ => 0) = f := by
  funext s
  simp [addFn]

/-- Helper: addFn is associative. -/
theorem addFn_assoc (f g h : String → ℚ) :
    addFn (addFn f g) h = addFn f (addFn g h) := by
  funext s
  simp [addFn]
  ring

/-- Helper: the positive-delta bump of the running totals equals adding
one segment. -/
theorem bump_seg (st : String → ℚ) (s : String) (dd : ℚ) :
    (if 0 < dd then bump st s dd else st) = addFn st (segTime s dd) := by
  by_cases h : 0 < dd
  · rw [if_pos h]
    funext s2
    by_cases h2 : s2 = s <;> simp [bump, addFn, segTime, h, h2]
  · rw [if_neg h]
    funext s2
    simp [addFn, segTime, h]

/-- Helper: looking an absent ticket up in the last map gives nothing. -/
theorem lookupLast_not_mem (L : LastMap) (tid : String)
    (h : tid ∉ L.map Prod.fst) : lookupLast L tid = none := by
  induction L with
  | nil => rfl
  | cons kv rest ih =>
    obtain ⟨k, v⟩ := kv
    simp only [List.map_cons, List.mem_cons, not_or] at h
    rw [lookupLast, if_neg (fun hh => h.1 hh.symm)]
    exact ih h.2

/-- Helper: looking a freshly appended ticket up in the last map finds
its entry. -/
theorem lookupLast_append_self (L : LastMap) (tid : String) (v : String × Timestamp)
    (h : tid ∉ L.map Prod.fst) : lookupLast (L ++ [(tid, v)]) tid = some v := by
  induction L with
  | nil => simp [lookupLast]
  | cons kv rest ih =>
    obtain ⟨k, w⟩ := kv
    simp only [List.map_cons, List.mem_cons, not_or] at h
    rw [List.cons_append, lookupLast, if_neg (fun hh => h.1 hh.symm)]
    exact ih h.2

/-- Helper: assigning an absent key in the last map appends it. -/
theorem updLast_not_mem (L : LastMap) (tid : String) (v : String × Timestamp)
    (h : tid ∉ L.map Prod.fst) : updLast L tid v = L ++ [(tid, v)] := by
  induction L with
  | nil => rfl
  | cons kv rest ih =>
    obtain ⟨k, w⟩ := kv
    simp only [List.map_cons, List.mem_cons, not_or] at h
    rw [updLast, if_neg (fun hh => h.1 hh.symm), ih h.2]
    rfl

/-- Helper: assigning a key that sits at the end of the last map
replaces its value in place. -/
theorem updLast_append_self (L : LastMap) (tid : String) (w v : String × Timestamp)
    (h : tid ∉ L.map Prod.fst) : updLast (L ++ [(tid, w)]) tid v = L ++ [(tid, v)] := by
  induction L with
  | nil => simp [updLast]
  | cons kv rest ih =>
    obtain ⟨k, w2⟩ := kv
    simp only [List.map_cons, List.mem_cons, not_or] at h
    rw [List.cons_append, updLast, if_neg (fun hh => h.1 hh.symm), ih h.2]
    rfl

/-- Helper: one fold step on a ticket not yet seen only remembers its
event. -/
theorem stepEvent_new (st : String → ℚ) (L : LastMap) (tid est byu : String)
    (t : Timestamp) (hL : tid ∉ L.map Prod.fst) :
    stepEvent (st, L) ⟨tid, est, byu, t⟩ = (st, L ++ [(tid, (est, t))]) := by
  unfold stepEvent
  dsimp only
  rw [lookupLast_not_mem L tid hL]
  dsimp only
  rw [updLast_not_mem L tid (est, t) hL]

/-- Helper: one fold step on a ticket whose last event is known charges
the positive delta to the previous state and advances the last event. -/
theorem stepEvent_existing (st : String → ℚ) (L : LastMap) (tid : String)
    (pv : String × Timestamp) (est byu : String) (t : Timestamp)
    (hL : tid ∉ L.map Prod.fst) :
    stepEvent (st, L ++ [(tid, pv)]) ⟨tid, est, byu, t⟩
      = (addFn st (segTime pv.1 (hoursBetween pv.2 t)), L ++ [(tid, (est, t))]) := by
  unfold stepEvent
  dsimp only
  rw [lookupLast_append_self L tid pv hL]
  dsimp only
  rw [bump_seg, updLast_append_self L tid pv (est, t) hL]

/-- Helper: folding the remaining events of one ticket accumulates its
consecutive-pair segments and leaves its last event in the map. -/
theorem foldl_group_tail (evs : List EvData) (tid : String) (L : LastMap)
    (hL : tid ∉ L.map Prod.fst) :
    ∀ (pv : String × Timestamp) (st : String → ℚ),
    List.foldl stepEvent (st, L ++ [(tid, pv)])
        (evs.map (fun q => (⟨tid, q.1, q.2.1, q.2.2⟩ : EventRec)))
      = (addFn st (pairsWalkFrom pv evs), L ++ [(tid, lastFrom pv evs)]) := by
  induction evs with
  | nil =>
    intro pv st
    simp [pairsWalkFrom, lastFrom, addFn_zero]
  | cons q rest ih =>
    intro pv st
    rw [List.map_cons, List.foldl_cons,
        stepEvent_existing st L tid pv q.1 q.2.1 q.2.2 hL,
        ih (q.1, q.2.2) (addFn st (segTime pv.1 (hoursBetween pv.2 q.2.2)))]
    rw [pairsWalkFrom, addFn_assoc]
    rfl

/-- Helper: folding all events of one fresh ticket. -/
theorem foldl_group (g : TicketGroup) (st : String → ℚ) (L : LastMap)
    (hL : g.tid ∉ L.map Prod.fst) :
    List.foldl stepEvent (st, L) (groupEvents g)
      = (addFn st (pairsWalkFrom (g.headEv.1, g.headEv.2.2) g.tailEvs),
         L ++ [(g.tid, groupLast g)]) := by
  unfold groupEvents groupLast
  rw [List.map_cons, List.foldl_cons,
      stepEvent_new st L g.tid g.headEv.1 g.headEv.2.1 g.headEv.2.2 hL]
  exact foldl_group_tail g.tailEvs g.tid L hL (g.headEv.1, g.headEv.2.2) st

/-- Helper: folding the flattened groups accumulates all
consecutive-pair segments and leaves one last-event entry per ticket,
in order. -/
theorem foldl_groups (gs : List TicketGroup) :
    ∀ (st : String → ℚ) (L : LastMap),
    (∀ g ∈ gs, g.tid ∉ L.map Prod.fst) →
    (gs.map TicketGroup.tid).Nodup →
    List.foldl stepEvent (st, L) (flattenGroups gs)
      = (addFn st (sumPairs gs), L ++ gs.map (fun g => (g.tid, groupLast g))) := by
  induction gs with
  | nil =>
    intro st L _ _
    simp [flattenGroups, sumPairs, addFn_zero]
  | cons g gs ih =>
    intro st L hdisj hnodup
    have hnodup2 : (g.tid :: gs.map TicketGroup.tid).Nodup := by simpa using hnodup
    have hnd := List.nodup_cons.mp hnodup2
    have hdisj2 : ∀ g2 ∈ gs, g2.tid ∉ (L ++ [(g.tid, groupLast g)]).map Prod.fst := by
      intro g2 hg2
      rw [List.map_append]
      simp only [List.mem_append, not_or]
      refine ⟨hdisj g2 (List.mem_cons_of_mem g hg2), ?_⟩
      simp only [List.map_cons, List.map_nil, List.mem_singleton]
      intro h
      exact hnd.1 (h ▸ List.mem_map_of_mem TicketGroup.tid hg2)
    simp only [flattenGroups]
    rw [List.foldl_append,
        foldl_group g st L (hdisj g (List.mem_cons_self g gs)),
        ih _ _ hdisj2 hnd.2,
        addFn_assoc]
    simp [sumPairs, List.append_assoc]

/-- Helper: the closing loop over the per-ticket last events adds every
ticket's final open-ended segment. -/
theorem tailSegments_map (endT : Timestamp) (gs : List TicketGroup) :
    ∀ st, tailSegments endT st (gs.map (fun g => (g.tid, groupLast g)))
      = addFn st (sumTails endT gs) := by
  induction gs with
  | nil =>
    intro st
    simp [tailSegments, sumTails, addFn_zero]
  | cons g gs ih =>
    intro st
    rw [List.map_cons]
    simp only [tailSegments]
    rw [bump_seg, ih, addFn_assoc]
    rfl

/-- Helper: the reference total splits into the pair segments plus the
final segments. -/
theorem reference_split (endT : Timestamp) (gs : List TicketGroup) (s : String) :
    reference_time_by_state endT gs s = sumPairs gs s + sumTails endT gs s := by
  induction gs with
  | nil => simp [reference_time_by_state, sumPairs, sumTails]
  | cons g gs ih =>
    simp [reference_time_by_state, sumPairs, sumTails, ticketTime, addFn, groupLast, ih]
    ring

/-- C7: the handler's single fold over the flat (ticket_id, changed_at)
sorted event list, followed by its closing loop, computes exactly the
reference algorithm of the claim — per ticket, walk the events in time
order, charge each positive consecutive delta to the previous state and
the final open-ended segment up to the window end to the last state,
skipping zero-or-negative deltas, then sum per state across tickets —
and on the concrete instance (T1: Pendiente@t0, En progreso@t0+2h,
Finalizada@t0+5h, window end t0+7h) it attributes 2h to Pendiente, 3h to
En progreso and 2h to Finalizada, before and after rounding to one
decimal. -/
theorem C7_time_by_state (gs : List TicketGroup) (endT : Timestamp)
    (hnodup : (gs.map TicketGroup.tid).Nodup) :
    (∀ s, metrics_time_by_state (flattenGroups gs) endT s
        = reference_time_by_state endT gs s) ∧
    (metrics_time_by_state sampleEvents 25200 "Pendiente" = 2 ∧
     metrics_time_by_state sampleEvents 25200 "En progreso" = 3 ∧
     metrics_time_by_state sampleEvents 25200 "Finalizada" = 2 ∧
     round1 (metrics_time_by_state sampleEvents 25200 "Pendiente") = 2 ∧
     round1 (metrics_time_by_state sampleEvents 25200 "En progreso") = 3 ∧
     round1 (metrics_time_by_state sampleEvents 25200 "Finalizada") = 2) := by
  have hmain : ∀ (gs2 : List TicketGroup), (gs2.map TicketGroup.tid).Nodup →
      ∀ (endT2 : Timestamp) (s : String),
      metrics_time_by_state (flattenGroups gs2) endT2 s
        = reference_time_by_state endT2 gs2 s := by
    intro gs2 hnd endT2 s
    unfold metrics_time_by_state
    rw [foldl_groups gs2 (fun _ => 0) [] (by simp) hnd]
    dsimp only
    rw [List.nil_append, tailSegments_map]
    simp [addFn, reference_split]
  have hinst : ∀ s, metrics_time_by_state sampleEvents 25200 s
      = reference_time_by_state 25200 [sampleGroup] s := by
    intro s
    rw [show sampleEvents = flattenGroups [sampleGroup] from rfl]
    exact hmain [sampleGroup] (by decide) 25200 s
  have hP : metrics_time_by_state sampleEvents 25200 "Pendiente" = 2 := by
    rw [hinst]
    norm_num [reference_time_by_state, ticketTime, pairsWalkFrom, lastFrom, segTime,
              addFn, hoursBetween, sampleGroup, groupLast]
    simp
  have hE : metrics_time_by_state sampleEvents 25200 "En progreso" = 3 := by
    rw [hinst]
    norm_num [reference_time_by_state, ticketTime, pairsWalkFrom, lastFrom, segTime,
              addFn, hoursBetween, sampleGroup, groupLast]
    simp
  have hF : metrics_time_by_state sampleEvents 25200 "Finalizada" = 2 := by
    rw [hinst]
    norm_num [reference_time_by_state, ticketTime, pairsWalkFrom, lastFrom, segTime,
              addFn, hoursBetween, sampleGroup, groupLast]
    simp
  refine ⟨fun s => hmain gs hnodup endT s, hP, hE, hF, ?_, ?_, ?_⟩
  · rw [hP]
    norm_num [round1]
  · rw [hE]
    norm_num [round1]
  · rw [hF]
    norm_num [round1]

/-- C7 witness: the fold/reference equality read off the concrete
one-ticket store, together with one attributed total. -/
theorem C7_time_by_state_witness :
    (metrics_time_by_state (flattenGroups [sampleGroup]) 25200 "Pendiente"
       = reference_time_by_state 25200 [sampleGroup] "Pendiente") ∧
    metrics_time_by_state sampleEvents 25200 "En progreso" = 3 :=
  ⟨(C7_time_by_state [sampleGroup] 25200 (by decide)).1 "Pendiente",
   (C7_time_by_state [sampleGroup] 25200 (by decide)).2.2.1⟩

/-- C3 witness: the amended equivalence read off the concrete pending
store for the target "En progreso". -/
theorem C3_generic_update_equivalence_witness :
    update_request_generic pendingDB "r1" ⟨some (some "En progreso"), none, none, none⟩
        supportActor 5
      = transition_request pendingDB "r1" ⟨"En progreso", none, none⟩ supportActor 5 :=
  C3_generic_update_equivalence pendingDB "r1" supportActor 5 "En progreso" none none
    (Or.inl rfl)
    (by
      intro d h
      rw [show findRequest pendingDB "r1" = some pendingDoc from rfl] at h
      injection h with h2
      rw [← h2]
      decide)

end Solicitudes
